import Mathlib

/-
  Verification development for the next-safe-route repository.

  The core under study is the RouteHandlerBuilder / validation pipeline
  (src/unnamed/part_001, the variant exercised by the test suite
  src/src/routeHandlerBuilder.test.ts, together with
  src/src/createSafeRoute.ts and the types in src/unnamed/part_004).
  The builder accumulates schemas for the params/query/body slots plus a
  middleware list, and compiles them into a single request handler that
  validates in a fixed order, merges middleware context, calls the
  business handler, and translates every thrown error at one top-level
  catch.

  Modelling conventions:
  - JavaScript runtime values flowing through the pipeline are modelled
    by the inductive `JsonValue` (numbers as integers; floats are not
    needed by any claim).
  - Promise rejection / `throw` is modelled by `Except ThrownValue`.
    A thrown JS value is either an `Error` instance carrying a message
    string, or a non-`Error` value.
  - The incoming request is modelled at the parsed level: its query
    string is already split into decoded key/value pairs (the `new URL`
    parsing is the host platform's), its method is a string, and the
    result of `await request.json()` is a field (an `Except`, since JSON
    parsing of the stream can reject).
  - `JSON.stringify` is modelled by the executable serializer
    `serializeJson` below.
-/

namespace NextSafeRoute

/-- JavaScript/JSON values as they flow through the pipeline. -/
inductive JsonValue where
  | null : JsonValue
  | bool (b : Bool) : JsonValue
  | num (n : Int) : JsonValue
  | str (s : String) : JsonValue
  | arr (items : List JsonValue) : JsonValue
  | obj (fields : List (String × JsonValue)) : JsonValue
deriving Repr

/-- One hexadecimal digit, lowercase, as produced by JSON.stringify's
escape sequences. -/
def hexDigit (n : Nat) : String :=
  String.singleton (Char.ofNat (if n < 10 then 48 + n else 87 + (n % 16)))

/-- Escape one character the way JSON.stringify does. -/
def escapeChar (c : Char) : String :=
  if c = '"' then "\\\""
  else if c = '\\' then "\\\\"
  else if c = '\n' then "\\n"
  else if c = '\r' then "\\r"
  else if c = '\t' then "\\t"
  else if c.toNat = 8 then "\\b"
  else if c.toNat = 12 then "\\f"
  else if c.toNat < 32 then "\\u00" ++ hexDigit (c.toNat / 16) ++ hexDigit (c.toNat % 16)
  else String.singleton c

/-- Escape a list of characters the way JSON.stringify does, one
character at a time. -/
def escapeChars : List Char → String
  | [] => ""
  | c :: cs => escapeChar c ++ escapeChars cs

/-- Escape a whole string the way JSON.stringify does. -/
def escapeString (s : String) : String :=
  escapeChars s.data

/-- A JSON string literal: quotes around the escaped content. -/
def serializeStr (s : String) : String :=
  "\"" ++ escapeString s ++ "\""

mutual

/-- Model of JSON.stringify on a runtime value. -/
def serializeJson : JsonValue → String
  | .null => "null"
  | .bool true => "true"
  | .bool false => "false"
  | .num n => toString n
  | .str s => serializeStr s
  | .arr items => "[" ++ serializeArr items ++ "]"
  | .obj fields => "\x7b" ++ serializeFields fields ++ "\x7d"

/-- Comma-separated serialization of array elements. -/
def serializeArr : List JsonValue → String
  | [] => ""
  | [x] => serializeJson x
  | x :: xs => serializeJson x ++ "," ++ serializeArr xs

/-- Comma-separated serialization of object fields, in insertion order. -/
def serializeFields : List (String × JsonValue) → String
  | [] => ""
  | [(k, v)] => serializeStr k ++ ":" ++ serializeJson v
  | (k, v) :: xs => serializeStr k ++ ":" ++ serializeJson v ++ "," ++ serializeFields xs

end

/-- JavaScript truthiness of a runtime value (used by the
`context?.params || {}` default in the compiled handler). -/
def jsTruthy : JsonValue → Bool
  | .null => false
  | .bool b => b
  | .num n => n != 0
  | .str s => s != ""
  | .arr _ => true
  | .obj _ => true

/-- A schema descriptor. Schemas are opaque to the builder — it only
ever hands them to the validation adapter — so they are modelled as
plain tokens. -/
abbrev Schema := String

/-- Outcome of one `validate(schema, input)` call, as described by the
adapter contract (src/unnamed/part_001 consumes `.success`, `.data` and
`.issues`): success carries the parsed/coerced data, failure carries the
adapter's structured issue list (opaque to the core, passed through). -/
inductive ValidationOutcome where
  | success (data : JsonValue) : ValidationOutcome
  | failure (issues : JsonValue) : ValidationOutcome
deriving Repr

/-- Modelled from the spec: the JSON shape of a failed adapter outcome,
the tagged union `\x7bsuccess: false, issues: [...]\x7d`. The concrete
adapter implementations (src adapters directory, e.g. the zod adapter)
are not under src/; only this result shape, which the spec fixes as the
ValidationAdapter contract, is needed — it is what
`JSON.stringify(paramsResult)` serializes in the params branch of the
compiled handler. -/
def failureOutcomeJson (issues : JsonValue) : JsonValue :=
  .obj [("success", .bool false), ("issues", issues)]

/-- The uniform validation capability: `validate(schema, input)`. -/
abbrev ValidationAdapter := Schema → JsonValue → ValidationOutcome

/-- Modelled from the spec: the bundled default validation adapter
(the zod adapter, imported by src/unnamed/part_001 from a file that is
not under src/). Its checking behavior is external; all pipeline
theorems quantify over the adapter, and only its identity as the
construction-time default matters below. -/
def zodAdapter : ValidationAdapter := fun _ v => ValidationOutcome.success v

/-- A thrown JavaScript value: either an `Error` instance carrying a
message string, or a thrown non-`Error` value. -/
inductive ThrownValue where
  | errorWithMessage (message : String) : ThrownValue
  | nonError : ThrownValue
deriving Repr, DecidableEq

/-- The response value produced by a handler: HTTP status plus body
text. -/
structure Response where
  status : Nat
  body : String
deriving Repr, DecidableEq

/-- The incoming request, modelled at the parsed level. `queryEntries`
are the decoded query-string pairs of `request.url` in order of
occurrence; `jsonBody` is what `await request.json()` would produce
(`Except.error` when the stream is not valid JSON). -/
structure Req where
  method : String
  queryEntries : List (String × String)
  jsonBody : Except ThrownValue JsonValue

/-- The optional second argument the host framework passes to the
compiled handler; carries the path-parameter map (`context.params`). -/
structure InvocationCtx where
  params : Option JsonValue

/-- A middleware context fragment: a string-keyed record. -/
abbrev Frag := List (String × JsonValue)

/-- A middleware step: from the raw request to a context fragment,
possibly throwing. -/
abbrev Middleware := Req → Except ThrownValue Frag

/-- The context record handed to the business handler:
`\x7bparams, query, body, data\x7d`. -/
structure HandlerContext where
  params : JsonValue
  query : JsonValue
  body : JsonValue
  data : Frag

/-- The business handler: receives the raw request and the context,
returns a response or throws. -/
abbrev HandlerFn := Req → HandlerContext → Except ThrownValue Response

/-- A custom server-error mapping function (`handleServerError`). The
source passes the caught value as `error as Error`, so the function
receives whatever was thrown. -/
abbrev ServerErrorFn := ThrownValue → Response

/-- The builder's schema slots (`this.config` in
src/unnamed/part_001). -/
structure RouteHandlerConfig where
  paramsSchema : Option Schema := none
  querySchema : Option Schema := none
  bodySchema : Option Schema := none

/-- The builder state of src/unnamed/part_001: schema slots, middleware
list, optional custom error handler, and the validation adapter
(constructor default: the bundled zod adapter). The `contextType` field
of the source is a purely compile-time typing device with no runtime
content and is not modelled. -/
structure RouteHandlerBuilder where
  config : RouteHandlerConfig := {}
  middlewares : List Middleware := []
  handleServerError : Option ServerErrorFn := none
  validationAdapter : ValidationAdapter := zodAdapter

namespace RouteHandlerBuilder

/-- `params(schema)`: constructs a new builder from a copy of this one
with the params slot replaced (`new RouteHandlerBuilder(\x7b...this,
config: \x7b...this.config, paramsSchema: schema\x7d\x7d)`); the
receiver is never written to. -/
def params (b : RouteHandlerBuilder) (schema : Schema) : RouteHandlerBuilder :=
  { b with config := { b.config with paramsSchema := some schema } }

/-- `query(schema)`: new builder with the query slot replaced, all other
state carried over from the receiver. -/
def query (b : RouteHandlerBuilder) (schema : Schema) : RouteHandlerBuilder :=
  { b with config := { b.config with querySchema := some schema } }

/-- `body(schema)`: new builder with the body slot replaced, all other
state carried over from the receiver. -/
def body (b : RouteHandlerBuilder) (schema : Schema) : RouteHandlerBuilder :=
  { b with config := { b.config with bodySchema := some schema } }

/-- `use(middleware)`: new builder whose middleware sequence is the
receiver's extended by one step at the end. -/
def use (b : RouteHandlerBuilder) (m : Middleware) : RouteHandlerBuilder :=
  { b with middlewares := b.middlewares ++ [m] }

end RouteHandlerBuilder

/-- The construction-time options object of src/src/createSafeRoute.ts.
The source's parameter type declares only `handleServerError`; the
`validationAdapter` field here models the option the repository's README
documents callers passing at runtime (`createSafeRoute(\x7b
validationAdapter: valibotAdapter() \x7d)`) — the source function never
reads it. -/
structure CreateSafeRouteParams where
  handleServerError : Option ServerErrorFn := none
  validationAdapter : Option ValidationAdapter := none

/-- src/src/createSafeRoute.ts: builds a fresh RouteHandlerBuilder,
forwarding only `params?.handleServerError`; every other builder field
takes the constructor default (empty config, no middleware, the bundled
zod adapter). -/
def createSafeRoute (p : Option CreateSafeRouteParams) : RouteHandlerBuilder :=
  { handleServerError := p.bind (fun q => q.handleServerError) }

/-- Insertion into a string-keyed record with JavaScript object-spread
assignment semantics: an existing key keeps its position and gets the
new value, a new key is appended at the end. -/
def assocInsert {α : Type} : List (String × α) → String × α → List (String × α)
  | [], kv => [kv]
  | (k', v') :: rest, (k, v) =>
    if k' = k then (k, v) :: rest else (k', v') :: assocInsert rest (k, v)

/-- First-match lookup in a string-keyed record. -/
def assocFind {α : Type} : List (String × α) → String → Option α
  | [], _ => none
  | (k', v) :: rest, k => if k' = k then some v else assocFind rest k

/-- JavaScript object spread `\x7b...a, ...b\x7d`: every binding of `b`
is assigned into `a` in order. -/
def spreadMerge {α : Type} (a b : List (String × α)) : List (String × α) :=
  b.foldl assocInsert a

/-- `Object.fromEntries(url.searchParams.entries())`: build the flat
query record; a repeated key keeps its first position and the last
occurrence's value wins. -/
def fromEntries (entries : List (String × String)) : List (String × String) :=
  entries.foldl assocInsert []

/-- The initial query value of the compiled handler: the flattened
query-string record as a JSON object of strings. -/
def queryInit (req : Req) : JsonValue :=
  .obj ((fromEntries req.queryEntries).map (fun p => (p.1, JsonValue.str p.2)))

/-- The initial params value: `context?.params || \x7b\x7d` — the
path-parameter map from the invocation context, defaulting to an empty
object when the context is absent, the field is absent, or the field is
falsy. -/
def ctxParams : Option InvocationCtx → JsonValue
  | none => .obj []
  | some c =>
    match c.params with
    | none => .obj []
    | some p => if jsTruthy p then p else .obj []

/-- The initial body value: `request.method !== 'GET' ? await
request.json() : \x7b\x7d` — a GET request's body is the empty object
and the stream is not read; otherwise the JSON-parse result (whose
failure is a thrown error). -/
def bodyInit (req : Req) : Except ThrownValue JsonValue :=
  if req.method ≠ "GET" then req.jsonBody else .ok (.obj [])

/-- The error thrown on a params validation failure:
`new Error(JSON.stringify(\x7bmessage: 'Invalid params', errors:
paramsResult\x7d))`. Note the source places the whole adapter result
object in `errors` here (line 113 of src/unnamed/part_001), unlike the
query and body branches which place `.issues`. -/
def invalidParamsError (issues : JsonValue) : ThrownValue :=
  .errorWithMessage (serializeJson (.obj
    [("message", .str "Invalid params"), ("errors", failureOutcomeJson issues)]))

/-- The error thrown on a query validation failure:
`new Error(JSON.stringify(\x7bmessage: 'Invalid query', errors:
queryResult.issues\x7d))`. -/
def invalidQueryError (issues : JsonValue) : ThrownValue :=
  .errorWithMessage (serializeJson (.obj
    [("message", .str "Invalid query"), ("errors", issues)]))

/-- The error thrown on a body validation failure:
`new Error(JSON.stringify(\x7bmessage: 'Invalid body', errors:
bodyResult.issues\x7d))`. -/
def invalidBodyError (issues : JsonValue) : ThrownValue :=
  .errorWithMessage (serializeJson (.obj
    [("message", .str "Invalid body"), ("errors", issues)]))

/-- The params validation block of the compiled handler: skipped when no
schema is registered; on adapter success the working value is replaced
by the parsed data; on failure the structured error is thrown. -/
def paramsStep (b : RouteHandlerBuilder) (input : JsonValue) :
    Except ThrownValue JsonValue :=
  match b.config.paramsSchema with
  | none => .ok input
  | some s =>
    match b.validationAdapter s input with
    | .success d => .ok d
    | .failure issues => .error (invalidParamsError issues)

/-- The query validation block of the compiled handler. -/
def queryStep (b : RouteHandlerBuilder) (input : JsonValue) :
    Except ThrownValue JsonValue :=
  match b.config.querySchema with
  | none => .ok input
  | some s =>
    match b.validationAdapter s input with
    | .success d => .ok d
    | .failure issues => .error (invalidQueryError issues)

/-- The body validation block of the compiled handler. -/
def bodyStep (b : RouteHandlerBuilder) (input : JsonValue) :
    Except ThrownValue JsonValue :=
  match b.config.bodySchema with
  | none => .ok input
  | some s =>
    match b.validationAdapter s input with
    | .success d => .ok d
    | .failure issues => .error (invalidBodyError issues)

/-- The middleware loop of the compiled handler, with the accumulator
made explicit: each step's fragment is spread-merged into the
accumulator (`\x7b...middlewareContext, ...result\x7d`) before the next
step runs; a throwing step aborts the loop. -/
def runMiddlewaresFrom (acc : Frag) : List Middleware → Req → Except ThrownValue Frag
  | [], _ => .ok acc
  | mw :: rest, req =>
    match mw req with
    | .error e => .error e
    | .ok r => runMiddlewaresFrom (spreadMerge acc r) rest req

/-- The middleware loop started from the empty accumulator. -/
def runMiddlewares (ms : List Middleware) (req : Req) : Except ThrownValue Frag :=
  runMiddlewaresFrom [] ms req

/-- The body of the `try` block of the compiled handler
(src/unnamed/part_001 lines 104-150): extract query, params and body;
validate params, then query, then body, each only if registered,
throwing on the first failure; run the middleware loop; call the
business handler with the validated values and merged context. -/
def runPipeline (b : RouteHandlerBuilder) (h : HandlerFn) (req : Req)
    (ctx : Option InvocationCtx) : Except ThrownValue Response :=
  match bodyInit req with
  | .error e => .error e
  | .ok body0 =>
    match paramsStep b (ctxParams ctx) with
    | .error e => .error e
    | .ok p =>
      match queryStep b (queryInit req) with
      | .error e => .error e
      | .ok q =>
        match bodyStep b body0 with
        | .error e => .error e
        | .ok bd =>
          match runMiddlewares b.middlewares req with
          | .error e => .error e
          | .ok data => h req { params := p, query := q, body := bd, data := data }

/-- The `catch` block of the compiled handler (src/unnamed/part_001
lines 151-161): a configured custom handler is preferred; otherwise an
`Error` instance yields a 400 response whose body is the error's message
string, and a non-`Error` thrown value yields a 500 with a generic JSON
body. -/
def catchBranch (hse : Option ServerErrorFn) (e : ThrownValue) : Response :=
  match hse with
  | some f => f e
  | none =>
    match e with
    | .errorWithMessage m => { status := 400, body := m }
    | .nonError =>
      { status := 500
        body := serializeJson (.obj [("message", .str "Internal server error")]) }

/-- The compiled handler produced by `.handler(businessFn)`: the whole
pipeline wrapped in the single try/catch. -/
def compiledHandler (b : RouteHandlerBuilder) (h : HandlerFn) (req : Req)
    (ctx : Option InvocationCtx) : Response :=
  match runPipeline b h req ctx with
  | .ok r => r
  | .error e => catchBranch b.handleServerError e

/-- Shallow last-write-wins merge of a list of fragments in order, as
the spec describes the middleware context accumulation. -/
def mergeAll (frags : List Frag) : Frag :=
  frags.foldl spreadMerge []

/-- The fragment each middleware step returns on a given request, in
registration order; an error if some step throws. Used to state what
the merged context must equal. -/
def middlewareOutputs : List Middleware → Req → Except ThrownValue (List Frag)
  | [], _ => .ok []
  | mw :: rest, req =>
    match mw req with
    | .error e => .error e
    | .ok r =>
      match middlewareOutputs rest req with
      | .error e => .error e
      | .ok rs => .ok (r :: rs)

theorem assocFind_assocInsert {α : Type} (m : List (String × α)) (k' k : String) (v : α) :
    assocFind (assocInsert m (k', v)) k =
      if k' = k then some v else assocFind m k := by
  induction m with
  | nil => simp [assocInsert, assocFind]
  | cons hd tl ih =>
    obtain ⟨a, w⟩ := hd
    by_cases hak : a = k'
    · subst hak
      by_cases hk : a = k
      · subst hk
        simp [assocInsert, assocFind]
      · simp [assocInsert, assocFind, hk]
    · by_cases hk : a = k
      · subst hk
        simp [assocInsert, assocFind, hak]
        rw [if_neg (fun h => hak h.symm)]
      · simp [assocInsert, assocFind, hak, hk, ih]

theorem assocFind_append {α : Type} (a b : List (String × α)) (k : String) :
    assocFind (a ++ b) k =
      match assocFind a k with
      | some v => some v
      | none => assocFind b k := by
  induction a with
  | nil => simp [assocFind]
  | cons hd tl ih =>
    obtain ⟨k', v⟩ := hd
    by_cases hk : k' = k
    · simp [assocFind, hk]
    · simp [assocFind, hk, ih]

theorem assocFind_foldl_assocInsert {α : Type} (l : List (String × α))
    (m : List (String × α)) (k : String) :
    assocFind (l.foldl assocInsert m) k =
      match assocFind l.reverse k with
      | some v => some v
      | none => assocFind m k := by
  induction l generalizing m with
  | nil => simp [assocFind]
  | cons hd tl ih =>
    obtain ⟨k₀, v₀⟩ := hd
    rw [List.foldl_cons, ih, List.reverse_cons, assocFind_append]
    cases assocFind tl.reverse k with
    | some v => simp
    | none =>
      simp [assocFind_assocInsert, assocFind]
      by_cases h : k₀ = k <;> simp [h]

theorem foldl_spreadMerge_eq_flatten {α : Type} (frags : List (List (String × α)))
    (acc : List (String × α)) :
    frags.foldl spreadMerge acc = (frags.flatten).foldl assocInsert acc := by
  induction frags generalizing acc with
  | nil => simp
  | cons f rest ih =>
    rw [List.foldl_cons, ih, List.flatten_cons, List.foldl_append]
    rfl

theorem assocFind_mergeAll (frags : List Frag) (k : String) :
    assocFind (mergeAll frags) k = assocFind (frags.flatten).reverse k := by
  rw [mergeAll, foldl_spreadMerge_eq_flatten, assocFind_foldl_assocInsert]
  cases assocFind (frags.flatten).reverse k <;> simp [assocFind]

theorem runMiddlewaresFrom_eq (ms : List Middleware) (req : Req)
    (frags : List Frag) (acc : Frag)
    (h : middlewareOutputs ms req = .ok frags) :
    runMiddlewaresFrom acc ms req = .ok (frags.foldl spreadMerge acc) := by
  induction ms generalizing acc frags with
  | nil =>
    simp [middlewareOutputs] at h
    subst h
    simp [runMiddlewaresFrom]
  | cons mw rest ih =>
    simp only [middlewareOutputs] at h
    cases hmw : mw req with
    | error e => rw [hmw] at h; exact absurd h (by simp)
    | ok r =>
      rw [hmw] at h
      cases hrest : middlewareOutputs rest req with
      | error e => rw [hrest] at h; exact absurd h (by simp)
      | ok rs =>
        rw [hrest] at h
        simp only at h
        injection h with h
        subst h
        simp only [runMiddlewaresFrom, hmw]
        rw [ih rs (spreadMerge acc r) hrest]
        rfl

theorem runMiddlewares_eq_mergeAll (ms : List Middleware) (req : Req)
    (frags : List Frag) (h : middlewareOutputs ms req = .ok frags) :
    runMiddlewares ms req = .ok (mergeAll frags) :=
  runMiddlewaresFrom_eq ms req frags [] h

/-- C2: `params(s)`, `query(s)`, `body(s)` and `use(m)` each produce a
builder that carries every other configuration item of the receiver over
unchanged while setting exactly one; since each returns a freshly
constructed value and never writes to the receiver, a
partially-configured builder used as a template is not corrupted by
later chained calls on derived instances — deriving twice from the same
template gives the two independent results shown in the last two
conjuncts. -/
theorem c2_builder_immutable_chaining (b : RouteHandlerBuilder)
    (s t u s2 : Schema) (m : Middleware) :
    ((b.params s).config.paramsSchema = some s
      ∧ (b.params s).config.querySchema = b.config.querySchema
      ∧ (b.params s).config.bodySchema = b.config.bodySchema
      ∧ (b.params s).middlewares = b.middlewares
      ∧ (b.params s).handleServerError = b.handleServerError
      ∧ (b.params s).validationAdapter = b.validationAdapter)
    ∧ ((b.query t).config.querySchema = some t
      ∧ (b.query t).config.paramsSchema = b.config.paramsSchema
      ∧ (b.query t).config.bodySchema = b.config.bodySchema
      ∧ (b.query t).middlewares = b.middlewares
      ∧ (b.query t).handleServerError = b.handleServerError
      ∧ (b.query t).validationAdapter = b.validationAdapter)
    ∧ ((b.body u).config.bodySchema = some u
      ∧ (b.body u).config.paramsSchema = b.config.paramsSchema
      ∧ (b.body u).config.querySchema = b.config.querySchema
      ∧ (b.body u).middlewares = b.middlewares
      ∧ (b.body u).handleServerError = b.handleServerError
      ∧ (b.body u).validationAdapter = b.validationAdapter)
    ∧ ((b.use m).middlewares = b.middlewares ++ [m]
      ∧ (b.use m).config = b.config
      ∧ (b.use m).handleServerError = b.handleServerError
      ∧ (b.use m).validationAdapter = b.validationAdapter)
    ∧ ((b.params s).query t).config.paramsSchema = some s
    ∧ (b.params s2).config.paramsSchema = some s2
    ∧ (b.params s2).config.querySchema = b.config.querySchema :=
  ⟨⟨rfl, rfl, rfl, rfl, rfl, rfl⟩,
   ⟨rfl, rfl, rfl, rfl, rfl, rfl⟩,
   ⟨rfl, rfl, rfl, rfl, rfl, rfl⟩,
   ⟨rfl, rfl, rfl, rfl⟩,
   rfl, rfl, rfl⟩

/-- A concrete schema-directed adapter for witnesses: the schema token
"fail" rejects every input with one issue, "num42" coerces every input
to the number 42, anything else accepts the input unchanged. -/
def wAdapter : ValidationAdapter := fun s v =>
  match s with
  | "fail" => .failure (.arr [.str "bad"])
  | "num42" => .success (.num 42)
  | _ => .success v

/-- A concrete GET request with one query pair and an (unreadable-free)
body stream. -/
def wReqGet : Req :=
  { method := "GET", queryEntries := [("n", "42")], jsonBody := .ok .null }

/-- A concrete invocation context carrying a path-parameter map. -/
def wCtx : InvocationCtx := { params := some (.obj [("id", .str "x")]) }

/-- A concrete business handler echoing the query value it received. -/
def wHandler : HandlerFn := fun _ c => .ok { status := 200, body := serializeJson c.query }

/-- A builder whose params, query and body schemas all fail under
`wAdapter`. -/
def wB1 : RouteHandlerBuilder :=
  { config := { paramsSchema := some "fail", querySchema := some "fail", bodySchema := some "fail" }
    validationAdapter := wAdapter }

/-- C1: validation runs in the fixed order params, query, body, each
slot only when a schema is registered, and the first failing slot
determines the whole outcome: when params fail the result is the
params-failure response however the query/body schemas, middleware list
and business handler are chosen (so none of them runs and a
simultaneous query failure is never the one reported); when params
pass and query fails, the query failure is reported; when params and
query pass and body fails, the body failure is reported. The request is
assumed to have an extractable body (`bodyInit` succeeds), since body
extraction precedes all validation in the source. -/
theorem c1_validation_order_first_failure_wins (b : RouteHandlerBuilder)
    (h : HandlerFn) (req : Req) (ctx : Option InvocationCtx) (bv : JsonValue)
    (hbv : bodyInit req = .ok bv) :
    (∀ s issues, b.config.paramsSchema = some s →
      b.validationAdapter s (ctxParams ctx) = .failure issues →
      compiledHandler b h req ctx =
        catchBranch b.handleServerError (invalidParamsError issues))
    ∧ (∀ p s issues, paramsStep b (ctxParams ctx) = .ok p →
      b.config.querySchema = some s →
      b.validationAdapter s (queryInit req) = .failure issues →
      compiledHandler b h req ctx =
        catchBranch b.handleServerError (invalidQueryError issues))
    ∧ (∀ p q s issues, paramsStep b (ctxParams ctx) = .ok p →
      queryStep b (queryInit req) = .ok q →
      b.config.bodySchema = some s →
      b.validationAdapter s bv = .failure issues →
      compiledHandler b h req ctx =
        catchBranch b.handleServerError (invalidBodyError issues)) := by
  refine ⟨?_, ?_, ?_⟩
  · intro s issues hs hfail
    simp [compiledHandler, runPipeline, hbv, paramsStep, hs, hfail]
  · intro p s issues hp hs hfail
    simp [compiledHandler, runPipeline, hbv, hp, queryStep, hs, hfail]
  · intro p q s issues hp hq hs hfail
    simp [compiledHandler, runPipeline, hbv, hp, hq, bodyStep, hs, hfail]

/-- C1 witness: on a concrete builder whose params and query schemas
both fail, the compiled handler reports the params failure. -/
theorem c1_witness :
    bodyInit wReqGet = .ok (.obj [])
    ∧ wB1.config.paramsSchema = some "fail"
    ∧ wB1.validationAdapter "fail" (ctxParams (some wCtx)) =
        .failure (.arr [.str "bad"])
    ∧ wB1.validationAdapter "fail" (queryInit wReqGet) =
        .failure (.arr [.str "bad"])
    ∧ compiledHandler wB1 wHandler wReqGet (some wCtx) =
        catchBranch none (invalidParamsError (.arr [.str "bad"])) :=
  ⟨rfl, rfl, rfl, rfl,
    (c1_validation_order_first_failure_wins wB1 wHandler wReqGet (some wCtx)
      (.obj []) rfl).1 "fail" (.arr [.str "bad"]) rfl rfl⟩

/-- A concrete custom server-error function returning a 500 response. -/
def wServerError : ServerErrorFn :=
  fun _ => { status := 500, body := "custom handler response" }

/-- A builder with a failing params schema and a configured custom error
handler. -/
def wB3 : RouteHandlerBuilder :=
  { config := { paramsSchema := some "fail" }
    handleServerError := some wServerError
    validationAdapter := wAdapter }

/-- C3 counterexample: with a custom handleServerError configured, a
params validation failure is not recovered locally as a 400-class
response — it reaches the top-level recovery point and the custom
handler's 500 response is returned, contradicting the claim that a
validation failure never reaches the top-level catch and is always
reported as a 400-class structured response. -/
theorem c3_counterexample_escalated_to_catch :
    compiledHandler wB3 wHandler wReqGet (some wCtx) =
      { status := 500, body := "custom handler response" } := by
  rfl

/-- C3 amended: a validation failure is raised as an error to the single
top-level catch; when no custom error handler is configured, the catch
turns it into a structured response with status 400 for whichever slot
failed first. -/
theorem c3_default_validation_failure_is_400 (b : RouteHandlerBuilder)
    (h : HandlerFn) (req : Req) (ctx : Option InvocationCtx) (bv : JsonValue)
    (hbv : bodyInit req = .ok bv)
    (hse : b.handleServerError = none) :
    (∀ s issues, b.config.paramsSchema = some s →
      b.validationAdapter s (ctxParams ctx) = .failure issues →
      compiledHandler b h req ctx =
        { status := 400
          body := serializeJson (.obj [("message", .str "Invalid params"),
            ("errors", failureOutcomeJson issues)]) })
    ∧ (∀ p s issues, paramsStep b (ctxParams ctx) = .ok p →
      b.config.querySchema = some s →
      b.validationAdapter s (queryInit req) = .failure issues →
      compiledHandler b h req ctx =
        { status := 400
          body := serializeJson (.obj [("message", .str "Invalid query"),
            ("errors", issues)]) })
    ∧ (∀ p q s issues, paramsStep b (ctxParams ctx) = .ok p →
      queryStep b (queryInit req) = .ok q →
      b.config.bodySchema = some s →
      b.validationAdapter s bv = .failure issues →
      compiledHandler b h req ctx =
        { status := 400
          body := serializeJson (.obj [("message", .str "Invalid body"),
            ("errors", issues)]) }) := by
  refine ⟨?_, ?_, ?_⟩
  · intro s issues hs hfail
    simp [compiledHandler, runPipeline, hbv, paramsStep, hs, hfail, catchBranch,
      hse, invalidParamsError]
  · intro p s issues hp hs hfail
    simp [compiledHandler, runPipeline, hbv, hp, queryStep, hs, hfail, catchBranch,
      hse, invalidQueryError]
  · intro p q s issues hp hq hs hfail
    simp [compiledHandler, runPipeline, hbv, hp, hq, bodyStep, hs, hfail, catchBranch,
      hse, invalidBodyError]

/-- A builder like `wB1` but with no custom error handler and only the
params schema failing. -/
def wB3d : RouteHandlerBuilder :=
  { config := { paramsSchema := some "fail" }, validationAdapter := wAdapter }

/-- C3 witness: on a concrete builder with no custom handler, the params
failure yields the structured 400 response. -/
theorem c3_witness :
    bodyInit wReqGet = .ok (.obj [])
    ∧ wB3d.handleServerError = none
    ∧ compiledHandler wB3d wHandler wReqGet (some wCtx) =
        { status := 400
          body := serializeJson (.obj [("message", .str "Invalid params"),
            ("errors", failureOutcomeJson (.arr [.str "bad"]))]) } :=
  ⟨rfl, rfl,
    (c3_default_validation_failure_is_400 wB3d wHandler wReqGet (some wCtx)
      (.obj []) rfl rfl).1 "fail" (.arr [.str "bad"]) rfl rfl⟩

/-- C4: when every registered slot validates successfully, the working
values handed to the business handler are the adapter's parsed/coerced
outputs, not the raw inputs: for any business handler, the compiled
handler's response is the handler's response on exactly the context
built from the adapter outputs. -/
theorem c4_handler_receives_parsed_data (b : RouteHandlerBuilder)
    (h : HandlerFn) (req : Req) (ctx : Option InvocationCtx) (bv : JsonValue)
    (sp sq sb : Schema) (dp dq db : JsonValue) (data : Frag) (r : Response)
    (hbv : bodyInit req = .ok bv)
    (hps : b.config.paramsSchema = some sp)
    (hpa : b.validationAdapter sp (ctxParams ctx) = .success dp)
    (hqs : b.config.querySchema = some sq)
    (hqa : b.validationAdapter sq (queryInit req) = .success dq)
    (hbs : b.config.bodySchema = some sb)
    (hba : b.validationAdapter sb bv = .success db)
    (hmw : runMiddlewares b.middlewares req = .ok data)
    (hh : h req { params := dp, query := dq, body := db, data := data } = .ok r) :
    compiledHandler b h req ctx = r := by
  simp [compiledHandler, runPipeline, hbv, paramsStep, hps, hpa, queryStep, hqs, hqa,
    bodyStep, hbs, hba, hmw, hh]

/-- A builder whose query schema coerces its input to the number 42 and
whose params/body schemas accept their input unchanged. -/
def wB4 : RouteHandlerBuilder :=
  { config := { paramsSchema := some "id", querySchema := some "num42", bodySchema := some "any" }
    validationAdapter := wAdapter }

/-- C4 witness: the raw query value is the string record
`\x7bn: "42"\x7d`, the schema coerces it to the number 42, and the
business handler observably receives the number (it echoes its query
and the response body is the JSON text `42`, not the raw string
record). -/
theorem c4_witness :
    queryInit wReqGet = .obj [("n", .str "42")]
    ∧ wB4.validationAdapter "num42" (queryInit wReqGet) = .success (.num 42)
    ∧ compiledHandler wB4 wHandler wReqGet (some wCtx) =
        { status := 200, body := "42" } :=
  ⟨rfl, rfl,
    c4_handler_receives_parsed_data wB4 wHandler wReqGet (some wCtx)
      (.obj []) "id" "num42" "any" (.obj [("id", .str "x")]) (.num 42) (.obj []) []
      { status := 200, body := "42" }
      rfl rfl rfl rfl rfl rfl rfl rfl rfl⟩

/-- C5: when validation passes and every middleware step succeeds, the
business handler's context `data` is the shallow merge of each step's
returned fragment applied in registration order, and the merge is
last-write-wins: the value found for a key is the last binding of that
key across the fragments in registration order. -/
theorem c5_middleware_merge_in_order (b : RouteHandlerBuilder)
    (h : HandlerFn) (req : Req) (ctx : Option InvocationCtx) (bv : JsonValue)
    (p q bd : JsonValue) (frags : List Frag) (r : Response)
    (hbv : bodyInit req = .ok bv)
    (hp : paramsStep b (ctxParams ctx) = .ok p)
    (hq : queryStep b (queryInit req) = .ok q)
    (hbd : bodyStep b bv = .ok bd)
    (hmw : middlewareOutputs b.middlewares req = .ok frags)
    (hh : h req { params := p, query := q, body := bd, data := mergeAll frags } = .ok r) :
    compiledHandler b h req ctx = r
    ∧ ∀ k, assocFind (mergeAll frags) k = assocFind (frags.flatten).reverse k := by
  constructor
  · have hrun := runMiddlewares_eq_mergeAll b.middlewares req frags hmw
    simp [compiledHandler, runPipeline, hbv, hp, hq, hbd, hrun, hh]
  · intro k
    exact assocFind_mergeAll frags k

/-- First concrete middleware: contributes a user and a value for the
overlapping key "shared". -/
def wMw1 : Middleware := fun _ => .ok [("user", .str "u1"), ("shared", .str "a")]

/-- Second concrete middleware: contributes permissions and overwrites
the overlapping key "shared". -/
def wMw2 : Middleware := fun _ => .ok [("permissions", .arr [.str "read"]), ("shared", .str "b")]

/-- A builder with no schemas and the two middlewares above, in
registration order. -/
def wB5 : RouteHandlerBuilder := { middlewares := [wMw1, wMw2] }

/-- A concrete business handler reporting the merged value of the
overlapping key "shared". -/
def wHandler5 : HandlerFn := fun _ c =>
  .ok { status := 200
        body := match assocFind c.data "shared" with
          | some v => serializeJson v
          | none => "missing" }

/-- C5 witness: with two concrete middlewares whose fragments overlap on
the key "shared", the handler observes the second (later) step's value,
and the merged record is the in-order shallow merge. -/
theorem c5_witness :
    middlewareOutputs wB5.middlewares wReqGet =
      .ok [[("user", .str "u1"), ("shared", .str "a")],
           [("permissions", .arr [.str "read"]), ("shared", .str "b")]]
    ∧ compiledHandler wB5 wHandler5 wReqGet none = { status := 200, body := "\"b\"" }
    ∧ assocFind (mergeAll [[("user", .str "u1"), ("shared", .str "a")],
        [("permissions", .arr [.str "read"]), ("shared", .str "b")]]) "shared" =
        some (.str "b") :=
  ⟨rfl,
    (c5_middleware_merge_in_order wB5 wHandler5 wReqGet none
      (.obj []) (.obj []) (.obj [("n", .str "42")]) (.obj [])
      [[("user", .str "u1"), ("shared", .str "a")],
       [("permissions", .arr [.str "read"]), ("shared", .str "b")]]
      { status := 200, body := "\"b\"" }
      rfl rfl rfl rfl rfl rfl).1,
    rfl⟩

/-- C6: for a GET request the compiled handler's body extraction never
consults the request's body stream and produces the empty object
(first conjunct: the extraction result is the empty object whatever the
stream would parse to, including a stream whose parse would reject);
a configured body schema is then validated against that empty object:
its failure on the empty object is reported as the body failure, and
its success output on the empty object is what the business handler
receives as body. -/
theorem c6_get_body_is_empty_object (b : RouteHandlerBuilder)
    (h : HandlerFn) (req : Req) (ctx : Option InvocationCtx)
    (hm : req.method = "GET") :
    (∀ bodyA, bodyInit { req with jsonBody := bodyA } = .ok (.obj []))
    ∧ (∀ s issues p q, b.config.bodySchema = some s →
      paramsStep b (ctxParams ctx) = .ok p →
      queryStep b (queryInit req) = .ok q →
      b.validationAdapter s (.obj []) = .failure issues →
      compiledHandler b h req ctx =
        catchBranch b.handleServerError (invalidBodyError issues))
    ∧ (∀ s d p q data r, b.config.bodySchema = some s →
      paramsStep b (ctxParams ctx) = .ok p →
      queryStep b (queryInit req) = .ok q →
      b.validationAdapter s (.obj []) = .success d →
      runMiddlewares b.middlewares req = .ok data →
      h req { params := p, query := q, body := d, data := data } = .ok r →
      compiledHandler b h req ctx = r) := by
  have hbv : bodyInit req = .ok (.obj []) := by simp [bodyInit, hm]
  refine ⟨?_, ?_, ?_⟩
  · intro bodyA
    simp [bodyInit, hm]
  · intro s issues p q hs hp hq hfail
    simp [compiledHandler, runPipeline, hbv, hp, hq, bodyStep, hs, hfail]
  · intro s d p q data r hs hp hq hok hmw hh
    simp [compiledHandler, runPipeline, hbv, hp, hq, bodyStep, hs, hok, hmw, hh]

/-- A concrete GET request whose body stream would reject if it were
ever read. -/
def wReqGetBadBody : Req :=
  { method := "GET", queryEntries := [], jsonBody := .error .nonError }

/-- A builder with only a failing body schema. -/
def wB6 : RouteHandlerBuilder :=
  { config := { bodySchema := some "fail" }, validationAdapter := wAdapter }

/-- C6 witness: on a GET request whose stream would reject, the body is
still the empty object — the configured body schema is validated
against the empty object and its failure is reported as the body
failure. -/
theorem c6_witness :
    wReqGetBadBody.method = "GET"
    ∧ bodyInit wReqGetBadBody = .ok (.obj [])
    ∧ compiledHandler wB6 wHandler wReqGetBadBody none =
        catchBranch none (invalidBodyError (.arr [.str "bad"])) :=
  ⟨rfl,
    (c6_get_body_is_empty_object wB6 wHandler wReqGetBadBody none rfl).1
      (.error .nonError),
    (c6_get_body_is_empty_object wB6 wHandler wReqGetBadBody none rfl).2.1
      "fail" (.arr [.str "bad"]) (.obj []) (.obj []) rfl rfl rfl rfl⟩

/-- A builder with only a failing params schema and no custom error
handler. -/
def wB7 : RouteHandlerBuilder :=
  { config := { paramsSchema := some "fail" }, validationAdapter := wAdapter }

/-- A builder with only a failing query schema and no custom error
handler. -/
def wB7q : RouteHandlerBuilder :=
  { config := { querySchema := some "fail" }, validationAdapter := wAdapter }

/-- C7: the failing input is a request whose params fail their schema
with the issue list `["bad"]`. The response does have status 400 and
message "Invalid params", but its `errors` field carries the adapter's
whole failure outcome object (`\x7bsuccess: false, issues:
["bad"]\x7d`), not the issue list itself (first two conjuncts, and the
third shows the two bodies differ); the query branch, by contrast, puts
the issue list itself in `errors` (last conjunct), as the claim
describes. -/
theorem c7_params_errors_is_whole_outcome :
    compiledHandler wB7 wHandler wReqGet (some wCtx) =
      { status := 400
        body := serializeJson (.obj [("message", .str "Invalid params"),
          ("errors", failureOutcomeJson (.arr [.str "bad"]))]) }
    ∧ failureOutcomeJson (.arr [.str "bad"]) ≠ JsonValue.arr [.str "bad"]
    ∧ serializeJson (.obj [("message", .str "Invalid params"),
        ("errors", failureOutcomeJson (.arr [.str "bad"]))]) ≠
      serializeJson (.obj [("message", .str "Invalid params"),
        ("errors", .arr [.str "bad"])])
    ∧ compiledHandler wB7q wHandler wReqGet (some wCtx) =
      { status := 400
        body := serializeJson (.obj [("message", .str "Invalid query"),
          ("errors", .arr [.str "bad"])]) } := by
  refine ⟨rfl, ?_, ?_, rfl⟩
  · intro hcontra
    exact JsonValue.noConfusion hcontra
  · decide

/-- A business handler that throws an `Error` with message "oops". -/
def wThrowingHandler : HandlerFn := fun _ _ => .error (.errorWithMessage "oops")

/-- A builder with all constructor defaults: no schemas, no middleware,
no custom error handler. -/
def wB8 : RouteHandlerBuilder := {}

/-- C8 counterexample: a business handler throwing `new Error('oops')`
with no custom error handler yields status 400 with body the bare
message string "oops", not the JSON object `\x7bmessage: "oops"\x7d`
the claim describes. -/
theorem c8_counterexample_bare_message_body :
    compiledHandler wB8 wThrowingHandler wReqGet none = { status := 400, body := "oops" }
    ∧ "oops" ≠ serializeJson (.obj [("message", .str "oops")]) := by
  refine ⟨rfl, ?_⟩
  decide

/-- C8 amended: every non-validation failure — a body-parse rejection on
a non-GET request, a throwing middleware step, or a throwing business
handler — surfaces unchanged at the single top-level recovery point
(first three conjuncts); there, a configured custom error-mapping
function is preferred and its response returned (last conjunct), and
otherwise a thrown `Error` yields status 400 with the error's own
message string as the body (not wrapped in a JSON object), while a
thrown non-`Error` value yields the JSON body
`\x7bmessage: "Internal server error"\x7d` with status 500. -/
theorem c8_unexpected_error_translation (b : RouteHandlerBuilder)
    (h : HandlerFn) (req : Req) (ctx : Option InvocationCtx)
    (e : ThrownValue) (m : String) (f : ServerErrorFn) :
    (req.method ≠ "GET" → req.jsonBody = .error e →
      compiledHandler b h req ctx = catchBranch b.handleServerError e)
    ∧ (∀ bv p q bd, bodyInit req = .ok bv →
      paramsStep b (ctxParams ctx) = .ok p →
      queryStep b (queryInit req) = .ok q →
      bodyStep b bv = .ok bd →
      runMiddlewares b.middlewares req = .error e →
      compiledHandler b h req ctx = catchBranch b.handleServerError e)
    ∧ (∀ bv p q bd data, bodyInit req = .ok bv →
      paramsStep b (ctxParams ctx) = .ok p →
      queryStep b (queryInit req) = .ok q →
      bodyStep b bv = .ok bd →
      runMiddlewares b.middlewares req = .ok data →
      h req { params := p, query := q, body := bd, data := data } = .error e →
      compiledHandler b h req ctx = catchBranch b.handleServerError e)
    ∧ catchBranch none (.errorWithMessage m) = { status := 400, body := m }
    ∧ catchBranch none .nonError =
        { status := 500
          body := serializeJson (.obj [("message", .str "Internal server error")]) }
    ∧ catchBranch (some f) e = f e := by
  refine ⟨?_, ?_, ?_, rfl, rfl, rfl⟩
  · intro hm hbody
    simp [compiledHandler, runPipeline, bodyInit, hm, hbody]
  · intro bv p q bd hbv hp hq hbd hmw
    simp [compiledHandler, runPipeline, hbv, hp, hq, hbd, hmw]
  · intro bv p q bd data hbv hp hq hbd hmw hh
    simp [compiledHandler, runPipeline, hbv, hp, hq, hbd, hmw, hh]

/-- C8 witness: the concrete throwing business handler's error reaches
the top-level catch and is translated to a 400 response whose body is
the bare message string. -/
theorem c8_witness :
    wThrowingHandler wReqGet
      { params := ctxParams none, query := queryInit wReqGet
        body := .obj [], data := [] } = .error (.errorWithMessage "oops")
    ∧ compiledHandler wB8 wThrowingHandler wReqGet none =
        catchBranch none (.errorWithMessage "oops")
    ∧ catchBranch none (.errorWithMessage "oops") = { status := 400, body := "oops" } :=
  ⟨rfl,
    (c8_unexpected_error_translation wB8 wThrowingHandler wReqGet none
      (.errorWithMessage "oops") "oops" wServerError).2.2.1
      (.obj []) (ctxParams none) (queryInit wReqGet) (.obj []) []
      rfl rfl rfl rfl rfl rfl,
    (c8_unexpected_error_translation wB8 wThrowingHandler wReqGet none
      (.errorWithMessage "oops") "oops" wServerError).2.2.2.1⟩

/-- A distinguishable adapter a caller would try to select through
`createSafeRoute`. -/
def wCustomAdapter : ValidationAdapter := fun _ _ => .failure (.arr [])

/-- C9: the failing input is `createSafeRoute(\x7b validationAdapter:
valibotAdapter() \x7d)` as the README documents. The source's
createSafeRoute reads only `handleServerError` from its options, so the
returned builder's adapter is the bundled zod default and not the
requested one (first two conjuncts); the `handleServerError` option, by
contrast, is recognized and forwarded, defaulting to none (last two
conjuncts). -/
theorem c9_validation_adapter_option_ignored :
    (createSafeRoute (some { validationAdapter := some wCustomAdapter })).validationAdapter
      = zodAdapter
    ∧ (createSafeRoute (some { validationAdapter := some wCustomAdapter })).validationAdapter
      ≠ wCustomAdapter
    ∧ (createSafeRoute (some { handleServerError := some wServerError })).handleServerError
      = some wServerError
    ∧ (createSafeRoute none).handleServerError = none := by
  refine ⟨rfl, ?_, rfl, rfl⟩
  intro hcontra
  exact ValidationOutcome.noConfusion (congrFun (congrFun hcontra "s") JsonValue.null)

/-- C10: when a custom handleServerError is configured, a params
validation failure is not answered with the default structured 400
response: the failure is raised to the top-level catch, handed to the
custom function, and the custom function's response is returned. -/
theorem c10_custom_handler_receives_validation_failure (b : RouteHandlerBuilder)
    (h : HandlerFn) (req : Req) (ctx : Option InvocationCtx) (bv : JsonValue)
    (s : Schema) (issues : JsonValue) (f : ServerErrorFn)
    (hbv : bodyInit req = .ok bv)
    (hs : b.config.paramsSchema = some s)
    (hfail : b.validationAdapter s (ctxParams ctx) = .failure issues)
    (hf : b.handleServerError = some f) :
    compiledHandler b h req ctx = f (invalidParamsError issues) := by
  simp [compiledHandler, runPipeline, hbv, paramsStep, hs, hfail, catchBranch, hf]

/-- C10 witness: on the concrete builder with a failing params schema
and the custom 500-producing error handler, the response is the custom
handler's output, not a 400 validation response. -/
theorem c10_witness :
    wB3.handleServerError = some wServerError
    ∧ compiledHandler wB3 wHandler wReqGet (some wCtx) =
        wServerError (invalidParamsError (.arr [.str "bad"]))
    ∧ wServerError (invalidParamsError (.arr [.str "bad"])) =
        { status := 500, body := "custom handler response" } :=
  ⟨rfl,
    c10_custom_handler_receives_validation_failure wB3 wHandler wReqGet (some wCtx)
      (.obj []) "fail" (.arr [.str "bad"]) wServerError rfl rfl rfl rfl,
    rfl⟩

end NextSafeRoute
